import Mathlib

/-!
Verification of the tile-map renderer core: sprite-atlas allocator,
map-change detection, scene rebuild, grid coordinate system, and the
orbit-camera controller.  Definitions are shallow embeddings of the
Rust source (`src/map/loading.rs`, `src/map/mod.rs`, `src/map.rs`,
`src/camera.rs`); `f32` arithmetic on exact decimal data is modelled
over `ℚ` (allocator) and `ℝ` (geometry), `u32` arithmetic over `ℕ`
with Rust panics (division by zero) modelled as `Option.none`.
-/

namespace RustyJam

/-- Embedding of `bevy::sprite::Rect<f32>`: a UV rectangle, fields in source order
(`top`, `left`, `bottom`, `right`), modelled over `ℚ`. -/
structure Rect where
  top : ℚ
  left : ℚ
  bottom : ℚ
  right : ℚ
deriving DecidableEq, Repr

/-- Embedding of `MaterialAllocator` from `src/map/loading.rs`: resolved texture
`dimensions` and per-sprite `grid_dimensions` in pixels, plus the
per-rebuild cache `index -> material handle` (handles are `ℕ` ids,
fresh ids handed out by the `Assets<UnlitMaterial>` counter).
`computations` counts how many times `MaterialAllocator::index` has
been invoked, mirroring the unconditional call on line 66 of the
source. -/
structure MaterialAllocator where
  dimensions : ℕ × ℕ
  grid_dimensions : ℕ × ℕ
  cache : List (ℕ × ℕ)
  computations : ℕ
deriving DecidableEq, Repr

/-- Embedding of `MaterialAllocator::index`: extract the UV rect for a linear sprite
index.  `rows = width / cell_width`, `cols = height / cell_height` in
`u32` division; the linear index decomposes column-first as
`x = index % rows`, `y = index / rows`.  A Rust division or remainder
by zero panics, modelled as `none`. -/
def MaterialAllocator.index (a : MaterialAllocator) (index : ℕ) : Option Rect :=
  let width := a.dimensions.1
  let height := a.dimensions.2
  if a.grid_dimensions.1 = 0 then none
  else if a.grid_dimensions.2 = 0 then none
  else
    let rows := width / a.grid_dimensions.1
    let _cols := height / a.grid_dimensions.2
    if rows = 0 then none
    else
      let x : ℚ := ((index % rows : ℕ) : ℚ)
      let y : ℚ := ((index / rows : ℕ) : ℚ)
      let w : ℚ := (a.grid_dimensions.1 : ℚ) / (width : ℚ)
      let h : ℚ := (a.grid_dimensions.2 : ℚ) / (height : ℚ)
      some { top := y * h, left := x * w, bottom := y * h + h, right := x * w + w }

/-- Embedding of `HashMap::get`-style lookup in the allocator cache (assoc list). -/
def cacheLookup : List (ℕ × ℕ) → ℕ → Option ℕ
  | [], _ => none
  | p :: rest, i => if p.1 = i then some p.2 else cacheLookup rest i

/-- Embedding of `MaterialAllocator::get_material`: the rect is computed first
(unconditionally, incrementing `computations`), then the cache entry
for `index` is returned, inserting a fresh handle from the materials
store (`materials` is the next fresh id) on a miss.  A panic inside
`index` is propagated as `none`. -/
def MaterialAllocator.get_material (a : MaterialAllocator) (materials : ℕ)
    (index : ℕ) : Option (ℕ × MaterialAllocator × ℕ) :=
  (a.index index).map fun _rect =>
    match cacheLookup a.cache index with
    | some h =>
      (h, { a with computations := a.computations + 1 }, materials)
    | none =>
      (materials,
        { a with computations := a.computations + 1,
                 cache := (index, materials) :: a.cache },
        materials + 1)

/-- Well-formedness of an allocator cache against the materials
counter: every cached handle was previously handed out (is below the
counter) and handles determine their key. -/
def MaterialAllocator.wf (a : MaterialAllocator) (materials : ℕ) : Prop :=
  (∀ p ∈ a.cache, p.2 < materials) ∧
  (∀ p ∈ a.cache, ∀ q ∈ a.cache, p.2 = q.2 → p.1 = q.1)

/-- Embedding of `AssetEvent<Map>` with handles as `ℕ` ids. -/
inductive MapAssetEvent where
  | created (handle : ℕ)
  | modified (handle : ℕ)
  | removed (handle : ℕ)
deriving DecidableEq, Repr

/-- Result of running `detect_changes` over one batch of asset events:
either the system returned normally having sent the given `MapEvent`
updates, or it panicked (after sending them). -/
inductive DetectOutcome where
  | ok (sent : List ℕ)
  | panicked (sent : List ℕ)
deriving DecidableEq, Repr

/-- Prefix previously-sent updates onto an outcome. -/
def DetectOutcome.prepend (sent : List ℕ) : DetectOutcome → DetectOutcome
  | .ok s => .ok (sent ++ s)
  | .panicked s => .panicked (sent ++ s)

/-- Embedding of `detect_changes` from `src/map/loading.rs`, lines 202-236: iterate
the batch of asset events; `Created`/`Modified` send an update when the
handle equals the active map; `Removed` of the active map panics, and
`Removed` of any other handle executes `return`, ending the system and
leaving the rest of the batch unprocessed. -/
def detect_changes (active : ℕ) : List MapAssetEvent → DetectOutcome
  | [] => .ok []
  | .created h :: rest =>
    .prepend (if h = active then [h] else []) (detect_changes active rest)
  | .modified h :: rest =>
    .prepend (if h = active then [h] else []) (detect_changes active rest)
  | .removed h :: _rest =>
    if h = active then .panicked [] else .ok []

/-- One run of the `update_map` system: `roots` scene-root entities
exist when the run starts and `events` update events are drained.  The
root query is a snapshot taken at the start of the run and
`Commands::spawn` is deferred, so `get_single()` succeeds for every
event iff exactly one root existed at the start; otherwise each event
spawns a fresh root (visible only after the run). -/
def run_update_map (roots : ℕ) (events : ℕ) : ℕ :=
  if roots = 1 then roots else roots + events

/-- Scene-root count after a sequence of `update_map` runs, given the
number of update events drained by each run. -/
def run_sequence (roots : ℕ) : List ℕ → ℕ
  | [] => roots
  | k :: rest => run_sequence (run_update_map roots k) rest

/-- Embedding of `MapLoader::extensions` from `src/map/loading.rs`, lines 192-194. -/
def MapLoader.extensions : List String := ["map", ".map.yaml"]

noncomputable section

/-- Embedding of `bevy::math::Vec3`, modelled over `ℝ`. -/
structure Vec3 where
  x : ℝ
  y : ℝ
  z : ℝ

/-- Componentwise vector addition. -/
def Vec3.add (a b : Vec3) : Vec3 := ⟨a.x + b.x, a.y + b.y, a.z + b.z⟩

/-- Scalar multiplication (`v * s` on `bevy::math::Vec3`). -/
def Vec3.smul (r : ℝ) (v : Vec3) : Vec3 := ⟨r * v.x, r * v.y, r * v.z⟩

/-- Embedding of `Vec3::cross`. -/
def Vec3.cross (a b : Vec3) : Vec3 :=
  ⟨a.y * b.z - a.z * b.y, a.z * b.x - a.x * b.z, a.x * b.y - a.y * b.x⟩

/-- Embedding of `Vec3::length`. -/
def Vec3.length (v : Vec3) : ℝ := Real.sqrt (v.x ^ 2 + v.y ^ 2 + v.z ^ 2)

/-- Embedding of `Vec3::normalize`: division by the length. -/
def Vec3.normalize (v : Vec3) : Vec3 := Vec3.smul (1 / v.length) v

/-- Embedding of `Vec3::Y`. -/
def Vec3.unitY : Vec3 := ⟨0, 1, 0⟩

/-- Embedding of `bevy::math::Quat` (w + xi + yj + zk), modelled over `ℝ`. -/
structure Quat where
  w : ℝ
  x : ℝ
  y : ℝ
  z : ℝ

/-- Hamilton product of quaternions (`Quat::mul`). -/
def Quat.mul (a b : Quat) : Quat :=
  ⟨a.w * b.w - a.x * b.x - a.y * b.y - a.z * b.z,
   a.w * b.x + a.x * b.w + a.y * b.z - a.z * b.y,
   a.w * b.y - a.x * b.z + a.y * b.w + a.z * b.x,
   a.w * b.z + a.x * b.y - a.y * b.x + a.z * b.w⟩

/-- Quaternion conjugate. -/
def Quat.conj (q : Quat) : Quat := ⟨q.w, -q.x, -q.y, -q.z⟩

/-- Embedding of `Quat::from_axis_angle`: axis is assumed normalized. -/
def Quat.from_axis_angle (axis : Vec3) (angle : ℝ) : Quat :=
  ⟨Real.cos (angle / 2), Real.sin (angle / 2) * axis.x,
   Real.sin (angle / 2) * axis.y, Real.sin (angle / 2) * axis.z⟩

/-- Embedding of `Quat::IDENTITY`, the default rotation of a `Transform`. -/
def Quat.identity : Quat := ⟨1, 0, 0, 0⟩

/-- Rotation action `q * v` of a quaternion on a vector: the vector
part of `q · (0, v) · q*`. -/
def Quat.rotate (q : Quat) (v : Vec3) : Vec3 :=
  let r := (q.mul ⟨0, v.x, v.y, v.z⟩).mul q.conj
  ⟨r.x, r.y, r.z⟩

/-- Embedding of `TILE_SIZE` from `src/map/mod.rs` (`0.2`). -/
def TILE_SIZE : ℝ := 0.2

/-- Embedding of `Location` component: an integer grid cell. -/
structure Location where
  x : ℤ
  y : ℤ

/-- Embedding of `From<Location> for Vec3` in `src/map/mod.rs`:
`(x * TILE_SIZE, 0, y * TILE_SIZE)`. -/
def Location.toVec3 (l : Location) : Vec3 :=
  ⟨(l.x : ℝ) * TILE_SIZE, 0, (l.y : ℝ) * TILE_SIZE⟩

namespace MapAlt

/-- Embedding of `TILE_SIZE` from the `src/map.rs` iteration of the module
(`0.33`). -/
def TILE_SIZE : ℝ := 0.33

/-- Embedding of `From<Location> for Vec3` in `src/map.rs`:
`(x * TILE_SIZE, 0, y * TILE_SIZE)`. -/
def locationToVec3 (l : Location) : Vec3 :=
  ⟨(l.x : ℝ) * TILE_SIZE, 0, (l.y : ℝ) * TILE_SIZE⟩

end MapAlt

/-- Embedding of `Direction` enum from `src/map/mod.rs`, variants in source order. -/
inductive Direction where
  | PositiveX
  | NegativeY
  | NegativeX
  | PositiveY
deriving DecidableEq, Repr

/-- The per-direction angle in degrees from
`From<Direction> for Quat`. -/
def Direction.angleDeg : Direction → ℝ
  | .PositiveX => 0
  | .NegativeY => 90
  | .NegativeX => 180
  | .PositiveY => 270

/-- Embedding of `f32::to_radians`. -/
def toRadians (deg : ℝ) : ℝ := deg * (Real.pi / 180)

/-- Embedding of `From<Direction> for Quat`:
`Quat::from_axis_angle(Vec3::Y, angle.to_radians())`. -/
def Direction.toQuat (d : Direction) : Quat :=
  Quat.from_axis_angle Vec3.unitY (toRadians d.angleDeg)

/-- Embedding of `bevy::transform::Transform`: translation, rotation and scale. -/
structure Transform where
  translation : Vec3
  rotation : Quat
  scale : Vec3

/-- Embedding of `Transform::from_translation`: rotation is `Quat::IDENTITY` and
scale is one. -/
def Transform.from_translation (t : Vec3) : Transform :=
  ⟨t, Quat.identity, ⟨1, 1, 1⟩⟩

/-- Embedding of `WallBundle` from `src/map/mod.rs` (render sub-bundle flattened to
the fields the claims are about; the mesh is the shared wall quad and
the material handle is a `ℕ` id). -/
structure WallBundle where
  location : Location
  direction : Direction
  material : ℕ
  transform : Transform

/-- Embedding of `WallBundle::new`, lines 177-199 of `src/map/mod.rs`: the transform
is `Transform::from_translation(location.into())` — translation only,
no rotation. -/
def WallBundle.new (location : Location) (direction : Direction)
    (material : ℕ) : WallBundle :=
  { location := location, direction := direction, material := material,
    transform := Transform.from_translation location.toVec3 }

/-- One step of the reactive `direction_controller` system on an entity
whose `Direction` changed (components were just added): the transform
rotation is set to the direction's rotation. -/
def direction_controller (d : Direction) (t : Transform) : Transform :=
  { t with rotation := d.toQuat }

/-- Embedding of `ControllerBasis` from `src/camera.rs`. -/
structure ControllerBasis where
  up : Vec3
  forward : Vec3

/-- Embedding of `YawPitchControls` from `src/camera.rs`. -/
structure YawPitchControls where
  focus : Vec3
  yaw : ℝ
  pitch : ℝ
  dist : ℝ

/-- Embedding of `YawPitchControls::yaw`: yaw rotation around the global basis
up. -/
def YawPitchControls.yawRotation (c : YawPitchControls)
    (basis : ControllerBasis) : Quat :=
  Quat.from_axis_angle basis.up c.yaw

/-- Embedding of `YawPitchControls::rotator`: pitch about the normalized
`up × forward` axis by `-pitch`, composed with yaw. -/
def YawPitchControls.rotator (c : YawPitchControls)
    (basis : ControllerBasis) : Quat :=
  let pitch_axis := (basis.up.cross basis.forward).normalize
  let pitch := Quat.from_axis_angle pitch_axis (-c.pitch)
  (c.yawRotation basis).mul pitch

/-- Embedding of `YawPitchControls::local_basis`: both basis vectors rotated by the
rotator. -/
def YawPitchControls.local_basis (c : YawPitchControls)
    (basis : ControllerBasis) : ControllerBasis :=
  ⟨(c.rotator basis).rotate basis.up, (c.rotator basis).rotate basis.forward⟩

/-- The pose produced by `YawPitchControls::transform`:
`Transform::from_translation(focus + local_forward * dist)
.looking_at(focus, local_up)`.  The look-at construction itself belongs
to the external math library, so the pose is recorded as the position
together with the look-at target and up vector passed to it. -/
structure CameraPose where
  position : Vec3
  target : Vec3
  up : Vec3

/-- Embedding of `YawPitchControls::transform` from `src/camera.rs`, lines
113-120. -/
def YawPitchControls.cameraPose (c : YawPitchControls)
    (basis : ControllerBasis) : CameraPose :=
  ⟨c.focus.add (Vec3.smul c.dist (c.local_basis basis).forward),
   c.focus, (c.local_basis basis).up⟩

end

/-- A successful cache lookup returns an entry of the cache. -/
theorem cacheLookup_mem {l : List (ℕ × ℕ)} {k v : ℕ}
    (h : cacheLookup l k = some v) : (k, v) ∈ l := by
  induction l with
  | nil => simp [cacheLookup] at h
  | cons p rest ih =>
    obtain ⟨p1, p2⟩ := p
    rw [cacheLookup] at h
    by_cases hp : p1 = k
    · simp only [hp, if_pos] at h
      obtain rfl := Option.some.inj h
      subst hp
      exact List.mem_cons_self _ _
    · rw [if_neg hp] at h
      exact List.mem_cons_of_mem _ (ih h)

/-- If `get_material` succeeds, the rect computation succeeded. -/
theorem get_material_some_index {a : MaterialAllocator} {materials i : ℕ}
    {x : ℕ × MaterialAllocator × ℕ}
    (h : a.get_material materials i = some x) :
    (a.index i).isSome = true := by
  rw [MaterialAllocator.get_material] at h
  cases hr : a.index i with
  | none => rw [hr] at h; simp at h
  | some r => rfl

/-- Embedding of `get_material` on a cache hit: the cached handle is returned, the
computation counter still increments (the rect was recomputed), and the
materials store is untouched. -/
theorem get_material_hit (a : MaterialAllocator) (materials i h : ℕ)
    (hr : (a.index i).isSome = true) (hl : cacheLookup a.cache i = some h) :
    a.get_material materials i =
      some (h, { a with computations := a.computations + 1 }, materials) := by
  obtain ⟨r, hr⟩ := Option.isSome_iff_exists.mp hr
  rw [MaterialAllocator.get_material, hr, Option.map_some', hl]

/-- Embedding of `get_material` on a cache miss: a fresh handle is drawn from the
materials store and recorded in the cache. -/
theorem get_material_miss (a : MaterialAllocator) (materials i : ℕ)
    (hr : (a.index i).isSome = true) (hl : cacheLookup a.cache i = none) :
    a.get_material materials i =
      some (materials,
        { a with computations := a.computations + 1,
                 cache := (i, materials) :: a.cache },
        materials + 1) := by
  obtain ⟨r, hr⟩ := Option.isSome_iff_exists.mp hr
  rw [MaterialAllocator.get_material, hr, Option.map_some', hl]

/-- C1: for every sheet (with nonzero cell size and at least one column
of cells, so the `u32` divisions are defined) and every sprite index
`u`, `index` computes `rows = width / cell_width` and
`cols = height / cell_height` by integer division, decomposes `u` as
`column = u % rows`, `row = u / rows`, and returns the UV rectangle
`{left = column·(cw/w), top = row·(ch/h), right = left + cw/w,
bottom = top + ch/h}`; for a 50x25 texture with 10x5 cells, index 0
yields `{left 0, top 0, right 1/5, bottom 1/5}` and index 5 yields
`{left 0, top 1/5, right 1/5, bottom 2/5}`. -/
theorem claim1_allocator_uv_rect :
    (∀ (a : MaterialAllocator) (u : ℕ),
      0 < a.grid_dimensions.1 → 0 < a.grid_dimensions.2 →
      0 < a.dimensions.1 / a.grid_dimensions.1 →
      a.index u = some
        { top := ((u / (a.dimensions.1 / a.grid_dimensions.1) : ℕ) : ℚ) *
            ((a.grid_dimensions.2 : ℚ) / (a.dimensions.2 : ℚ)),
          left := ((u % (a.dimensions.1 / a.grid_dimensions.1) : ℕ) : ℚ) *
            ((a.grid_dimensions.1 : ℚ) / (a.dimensions.1 : ℚ)),
          bottom := ((u / (a.dimensions.1 / a.grid_dimensions.1) : ℕ) : ℚ) *
            ((a.grid_dimensions.2 : ℚ) / (a.dimensions.2 : ℚ)) +
            ((a.grid_dimensions.2 : ℚ) / (a.dimensions.2 : ℚ)),
          right := ((u % (a.dimensions.1 / a.grid_dimensions.1) : ℕ) : ℚ) *
            ((a.grid_dimensions.1 : ℚ) / (a.dimensions.1 : ℚ)) +
            ((a.grid_dimensions.1 : ℚ) / (a.dimensions.1 : ℚ)) }) ∧
    (⟨(50, 25), (10, 5), [], 0⟩ : MaterialAllocator).index 0 =
      some { top := 0, left := 0, bottom := 1/5, right := 1/5 } ∧
    (⟨(50, 25), (10, 5), [], 0⟩ : MaterialAllocator).index 5 =
      some { top := 1/5, left := 0, bottom := 2/5, right := 1/5 } := by
  refine ⟨?_, by norm_num [MaterialAllocator.index],
    by norm_num [MaterialAllocator.index]⟩
  intro a u h1 h2 h3
  simp only [MaterialAllocator.index, if_neg h1.ne', if_neg h2.ne',
    if_neg h3.ne']

/-- Witness for C1 at the 50x25 sheet with 10x5 cells and index 7
(column 2, row 1). -/
theorem claim1_allocator_uv_rect_witness :
    (⟨(50, 25), (10, 5), [], 0⟩ : MaterialAllocator).index 7 =
      some { top := ((7 / (50 / 10) : ℕ) : ℚ) * ((5 : ℚ) / (25 : ℚ)),
             left := ((7 % (50 / 10) : ℕ) : ℚ) * ((10 : ℚ) / (50 : ℚ)),
             bottom := ((7 / (50 / 10) : ℕ) : ℚ) * ((5 : ℚ) / (25 : ℚ)) +
               ((5 : ℚ) / (25 : ℚ)),
             right := ((7 % (50 / 10) : ℕ) : ℚ) * ((10 : ℚ) / (50 : ℚ)) +
               ((10 : ℚ) / (50 : ℚ)) } :=
  claim1_allocator_uv_rect.1 ⟨(50, 25), (10, 5), [], 0⟩ 7 (by decide)
    (by decide) (by decide)

/-- C6 (code bug): `Removed` of the active map panics, as the claim
says; but `Removed` of any other handle executes `return`, so the
remaining notifications of the batch are dropped — with active map 1,
the batch `[Removed 2, Created 1]` emits no update, while `[Created 1]`
alone emits one. -/
theorem claim6_removed_return_aborts_batch :
    (∀ (active : ℕ) (rest : List MapAssetEvent),
      detect_changes active (.removed active :: rest) = .panicked []) ∧
    detect_changes 1 [.removed 2, .created 1] = .ok [] ∧
    detect_changes 1 [.created 1] = .ok [1] := by
  refine ⟨?_, by decide, by decide⟩
  intro active rest
  simp [detect_changes]

/-- Counterexample to C7 as stated: a sheet whose cell width is 0
(constructible from a map file with `grid_dimensions: [0, 5]`) makes
`rows = width / 0` panic in Rust `u32` arithmetic, so `get_material`
does fail on it. -/
theorem claim7_counterexample :
    (⟨(50, 25), (0, 5), [], 0⟩ : MaterialAllocator).index 0 = none ∧
    (⟨(50, 25), (0, 5), [], 0⟩ : MaterialAllocator).get_material 0 0 =
      none := by decide

/-- C7 (amended): for every sheet with nonzero cell dimensions whose
resolved texture is at least one cell wide, `get_material` returns a
handle for every index — indices beyond the sheet bounds are not
rejected — and the UV rectangle is passed through unchecked: on the
50x25 sheet with 10x5 cells the out-of-range index 25 produces a rect
whose bottom is 6/5, outside [0, 1]. -/
theorem claim7_amended_total_and_unclamped :
    (∀ (a : MaterialAllocator) (materials u : ℕ),
      0 < a.grid_dimensions.1 → 0 < a.grid_dimensions.2 →
      a.grid_dimensions.1 ≤ a.dimensions.1 →
      (a.get_material materials u).isSome = true) ∧
    (⟨(50, 25), (10, 5), [], 0⟩ : MaterialAllocator).index 25 =
      some { top := 1, left := 0, bottom := 6/5, right := 1/5 } ∧
    ((1 : ℚ) < 6/5) := by
  refine ⟨?_, by norm_num [MaterialAllocator.index], by norm_num⟩
  intro a materials u h1 h2 h3
  have hrows : 0 < a.dimensions.1 / a.grid_dimensions.1 :=
    (Nat.one_le_div_iff h1).mpr h3
  have hidx : (a.index u).isSome = true := by
    simp only [MaterialAllocator.index, if_neg h1.ne', if_neg h2.ne',
      if_neg hrows.ne']
    rfl
  obtain ⟨r, hr⟩ := Option.isSome_iff_exists.mp hidx
  rw [MaterialAllocator.get_material, hr, Option.map_some']
  rfl

/-- Witness for C7 (amended): the general totality statement applied to
the 50x25 sheet with 10x5 cells at the out-of-bounds index 99. -/
theorem claim7_amended_witness :
    ((⟨(50, 25), (10, 5), [], 0⟩ : MaterialAllocator).get_material
      0 99).isSome = true :=
  claim7_amended_total_and_unclamped.1 ⟨(50, 25), (10, 5), [], 0⟩ 0 99
    (by decide) (by decide) (by decide)

/-- Counterexample to C8 as stated: on a fresh 50x25/10x5 allocator,
calling `get_material` with index 3 and then again with index 3 is a
cache hit that returns the previously created handle 0, but the
computation counter ends at 2 — the UV rectangle was recomputed on the
hit (line 66 computes it before consulting the cache). -/
theorem claim8_counterexample :
    (⟨(50, 25), (10, 5), [], 0⟩ : MaterialAllocator).get_material 0 3 =
      some (0, ⟨(50, 25), (10, 5), [(3, 0)], 1⟩, 1) ∧
    (⟨(50, 25), (10, 5), [(3, 0)], 1⟩ : MaterialAllocator).get_material 1 3 =
      some (0, ⟨(50, 25), (10, 5), [(3, 0)], 2⟩, 1) := by decide

/-- C8 (amended): on a well-formed allocator, two consecutive
`get_material` calls return the identical handle when the index is the
same and distinct handles when the indices differ; the UV rectangle is
recomputed by every call, including cache hits (the computation counter
increments unconditionally), with its result discarded on a hit. -/
theorem claim8_amended_caching :
    ∀ (a a₁ a₂ : MaterialAllocator) (mats i j h₁ m₁ h₂ m₂ : ℕ),
      a.wf mats →
      a.get_material mats i = some (h₁, a₁, m₁) →
      a₁.get_material m₁ j = some (h₂, a₂, m₂) →
      a₁.computations = a.computations + 1 ∧
      (i = j → h₁ = h₂) ∧ (i ≠ j → h₁ ≠ h₂) := by
  intro a a₁ a₂ mats i j h₁ m₁ h₂ m₂ hwf hg1 hg2
  have hri := get_material_some_index hg1
  cases hl1 : cacheLookup a.cache i with
  | some hc =>
    rw [get_material_hit a mats i hc hri hl1] at hg1
    simp only [Option.some.injEq, Prod.mk.injEq] at hg1
    obtain ⟨he1, ha1, hm1⟩ := hg1
    subst he1; subst ha1; subst hm1
    have hrj := get_material_some_index hg2
    cases hl2 : cacheLookup a.cache j with
    | some hc2 =>
      have hl2' : cacheLookup
          ({ a with computations := a.computations + 1 } :
            MaterialAllocator).cache j = some hc2 := hl2
      rw [get_material_hit _ mats j hc2 hrj hl2'] at hg2
      simp only [Option.some.injEq, Prod.mk.injEq] at hg2
      obtain ⟨he2, ha2, hm2⟩ := hg2
      subst he2; subst ha2; subst hm2
      refine ⟨rfl, ?_, ?_⟩
      · rintro rfl
        rw [hl1] at hl2
        exact Option.some.inj hl2
      · intro hij hhh
        exact hij (hwf.2 _ (cacheLookup_mem hl1) _ (cacheLookup_mem hl2) hhh)
    | none =>
      have hl2' : cacheLookup
          ({ a with computations := a.computations + 1 } :
            MaterialAllocator).cache j = none := hl2
      rw [get_material_miss _ mats j hrj hl2'] at hg2
      simp only [Option.some.injEq, Prod.mk.injEq] at hg2
      obtain ⟨he2, ha2, hm2⟩ := hg2
      subst he2; subst ha2; subst hm2
      refine ⟨rfl, ?_, ?_⟩
      · rintro rfl
        rw [hl1] at hl2
        exact absurd hl2 (by simp)
      · intro _
        exact (hwf.1 _ (cacheLookup_mem hl1)).ne
  | none =>
    rw [get_material_miss a mats i hri hl1] at hg1
    simp only [Option.some.injEq, Prod.mk.injEq] at hg1
    obtain ⟨he1, ha1, hm1⟩ := hg1
    subst he1; subst ha1; subst hm1
    have hrj := get_material_some_index hg2
    by_cases hij : i = j
    · subst hij
      have hl2' : cacheLookup ((i, mats) :: a.cache) i = some mats := by
        rw [cacheLookup, if_pos rfl]
      rw [get_material_hit _ (mats + 1) i mats hrj hl2'] at hg2
      simp only [Option.some.injEq, Prod.mk.injEq] at hg2
      obtain ⟨he2, ha2, hm2⟩ := hg2
      subst he2; subst ha2; subst hm2
      exact ⟨rfl, fun _ => rfl, fun hne => absurd rfl hne⟩
    · have hstep : cacheLookup ((i, mats) :: a.cache) j =
          cacheLookup a.cache j := by
        rw [cacheLookup, if_neg hij]
      cases hl2 : cacheLookup a.cache j with
      | some hc2 =>
        rw [get_material_hit _ (mats + 1) j hc2 hrj (hstep.trans hl2)] at hg2
        simp only [Option.some.injEq, Prod.mk.injEq] at hg2
        obtain ⟨he2, ha2, hm2⟩ := hg2
        subst he2; subst ha2; subst hm2
        have hlt : hc2 < mats := hwf.1 _ (cacheLookup_mem hl2)
        exact ⟨rfl, fun h => absurd h hij, fun _ => hlt.ne'⟩
      | none =>
        rw [get_material_miss _ (mats + 1) j hrj (hstep.trans hl2)] at hg2
        simp only [Option.some.injEq, Prod.mk.injEq] at hg2
        obtain ⟨he2, ha2, hm2⟩ := hg2
        subst he2; subst ha2; subst hm2
        exact ⟨rfl, fun h => absurd h hij, fun _ => (Nat.lt_succ_self _).ne⟩

/-- Witness for C8 (amended): the theorem applied to a fresh
50x25/10x5 allocator with indices 3 then 4. -/
theorem claim8_amended_caching_witness :
    (⟨(50, 25), (10, 5), [(3, 0)], 1⟩ : MaterialAllocator).computations =
      (⟨(50, 25), (10, 5), [], 0⟩ : MaterialAllocator).computations + 1 ∧
    ((3 : ℕ) = 4 → (0 : ℕ) = 1) ∧ ((3 : ℕ) ≠ 4 → (0 : ℕ) ≠ 1) :=
  claim8_amended_caching ⟨(50, 25), (10, 5), [], 0⟩
    ⟨(50, 25), (10, 5), [(3, 0)], 1⟩
    ⟨(50, 25), (10, 5), [(4, 1), (3, 0)], 2⟩ 0 3 4 0 1 1 2
    ⟨fun p hp => absurd hp (List.not_mem_nil p),
     fun p hp _ _ _ => absurd hp (List.not_mem_nil p)⟩
    (by decide) (by decide)

/-- Counterexample to C9 as stated: an `update_map` run that drains two
update events while no scene root exists yet spawns two root entities,
because the root query is a snapshot and `Commands::spawn` is deferred
to the end of the run. -/
theorem claim9_counterexample :
    run_sequence 0 [2] = 2 ∧ ¬ run_sequence 0 [2] ≤ 1 := by decide

/-- Starting from at most one root, runs draining at most one event
each keep the root count at most one. -/
theorem run_sequence_le_one :
    ∀ (batches : List ℕ) (roots : ℕ), roots ≤ 1 →
      (∀ k ∈ batches, k ≤ 1) → run_sequence roots batches ≤ 1 := by
  intro batches
  induction batches with
  | nil => intro roots h _; exact h
  | cons k rest ih =>
    intro roots h hb
    rw [run_sequence]
    refine ih _ ?_ fun x hx => hb x (List.mem_cons_of_mem _ hx)
    have hk := hb k (List.mem_cons_self _ _)
    rw [run_update_map]
    split <;> omega

/-- C9 (amended): a rebuild creates the root only when the query
snapshot at the start of the run shows none; spawned roots become
visible only after the run, so at most one scene-root entity exists
provided every `update_map` run drains at most one update event. -/
theorem claim9_amended_single_root :
    ∀ (batches : List ℕ), (∀ k ∈ batches, k ≤ 1) →
      run_sequence 0 batches ≤ 1 := by
  intro batches hb
  exact run_sequence_le_one batches 0 (by omega) hb

/-- Witness for C9 (amended): three runs draining one, zero and one
update events leave at most one root. -/
theorem claim9_amended_single_root_witness :
    run_sequence 0 [1, 0, 1] ≤ 1 :=
  claim9_amended_single_root [1, 0, 1] (by decide)

/-- Counterexample to C10 as stated: the loader's extension list is not
`["map"]` — it also contains `".map.yaml"`. -/
theorem claim10_counterexample :
    MapLoader.extensions ≠ ["map"] ∧
    ".map.yaml" ∈ MapLoader.extensions := by
  constructor
  · decide
  · simp [MapLoader.extensions]

/-- C10 (amended): the map asset loader's registered extensions are
exactly `map` and `.map.yaml`. -/
theorem claim10_amended_extensions :
    MapLoader.extensions = ["map", ".map.yaml"] := rfl

/-- C4: the derived translation of a grid location is exactly
`(x * TILE_SIZE, 0, y * TILE_SIZE)` with the module's single fixed
constant: `TILE_SIZE = 1/5` in `src/map/mod.rs` and `33/100` in the
`src/map.rs` iteration. -/
theorem claim4_grid_translation :
    ∀ l : Location,
      l.toVec3 = ⟨(l.x : ℝ) * (1 / 5), 0, (l.y : ℝ) * (1 / 5)⟩ ∧
      MapAlt.locationToVec3 l =
        ⟨(l.x : ℝ) * (33 / 100), 0, (l.y : ℝ) * (33 / 100)⟩ := by
  intro l
  constructor
  · simp only [Location.toVec3, TILE_SIZE, Vec3.mk.injEq]
    norm_num
  · simp only [MapAlt.locationToVec3, MapAlt.TILE_SIZE, Vec3.mk.injEq]
    norm_num

/-- C5: `Direction` maps `PositiveX`, `NegativeX`, `PositiveY`,
`NegativeY` to rotations about the vertical `Y` axis by exactly 0°,
180°, 270°, 90° (in radians: `0`, `π`, `3π/2`, `π/2`), and the
resulting quaternions have no `x` or `z` component (the axis is always
`Vec3::Y`). -/
theorem claim5_direction_rotation :
    Direction.toQuat .PositiveX = Quat.from_axis_angle Vec3.unitY 0 ∧
    Direction.toQuat .NegativeX =
      Quat.from_axis_angle Vec3.unitY Real.pi ∧
    Direction.toQuat .PositiveY =
      Quat.from_axis_angle Vec3.unitY (3 * Real.pi / 2) ∧
    Direction.toQuat .NegativeY =
      Quat.from_axis_angle Vec3.unitY (Real.pi / 2) ∧
    ∀ d : Direction,
      (Direction.toQuat d).x = 0 ∧ (Direction.toQuat d).z = 0 := by
  refine ⟨?_, ?_, ?_, ?_, ?_⟩
  · rw [Direction.toQuat,
      show toRadians (Direction.angleDeg .PositiveX) = 0 from by
        simp [Direction.angleDeg, toRadians]]
  · rw [Direction.toQuat,
      show toRadians (Direction.angleDeg .NegativeX) = Real.pi from by
        simp only [Direction.angleDeg, toRadians]; ring]
  · rw [Direction.toQuat,
      show toRadians (Direction.angleDeg .PositiveY) = 3 * Real.pi / 2 from by
        simp only [Direction.angleDeg, toRadians]; ring]
  · rw [Direction.toQuat,
      show toRadians (Direction.angleDeg .NegativeY) = Real.pi / 2 from by
        simp only [Direction.angleDeg, toRadians]; ring]
  · intro d
    cases d <;>
      simp [Direction.toQuat, Quat.from_axis_angle, Vec3.unitY]

/-- Counterexample to C2 as stated: the wall child entity spawned for a
`NegativeX` wall at the origin carries a transform whose rotation is
the identity, not `to_rotation(NegativeX)` (a 180° turn about `Y`) —
`WallBundle::new` builds the transform with
`Transform::from_translation` only. -/
theorem claim2_counterexample :
    (WallBundle.new ⟨0, 0⟩ .NegativeX 0).transform.rotation ≠
      Direction.toQuat .NegativeX := by
  intro h
  have hw := congrArg Quat.w h
  simp only [WallBundle.new, Transform.from_translation, Quat.identity,
    Direction.toQuat, Direction.angleDeg, Quat.from_axis_angle,
    Vec3.unitY] at hw
  rw [show toRadians 180 / 2 = Real.pi / 2 from by
    unfold toRadians; ring] at hw
  rw [Real.cos_pi_div_two] at hw
  exact one_ne_zero hw

/-- C2 (amended): the wall child entity spawned for a `MapWall` row
carries translation `to_translation(pos)`, the `Direction` component,
the `Location` component and the material, but its transform rotation
at spawn time is the identity; the rotation `to_rotation(direction)` is
applied by the reactive `direction_controller` system, which observes
the freshly added `Direction` component. -/
theorem claim2_amended_wall_spawn :
    ∀ (pos : Location) (dir : Direction) (mat : ℕ),
      (WallBundle.new pos dir mat).transform.translation = pos.toVec3 ∧
      (WallBundle.new pos dir mat).direction = dir ∧
      (WallBundle.new pos dir mat).location = pos ∧
      (WallBundle.new pos dir mat).material = mat ∧
      (WallBundle.new pos dir mat).transform.rotation = Quat.identity ∧
      (direction_controller (WallBundle.new pos dir mat).direction
        (WallBundle.new pos dir mat).transform).rotation = dir.toQuat :=
  fun _ _ _ => ⟨rfl, rfl, rfl, rfl, rfl, rfl⟩

/-- C3: for every basis of unit vectors and every control state with
positive distance, the orbit camera pose has position
`focus + (rotation(up, yaw) * rotation(normalize(up × forward),
-pitch)) * forward * dist`, looks at the focus, and passes the
equally-rotated up vector to the look-at; in the concrete scenario
(up `(0,1,0)`, forward `(0,0,1)`, focus origin, yaw = pitch = 45°,
dist = 1) the camera position is exactly `(1/2, √2/2, 1/2)`. -/
theorem claim3_orbit_camera :
    (∀ (basis : ControllerBasis) (c : YawPitchControls),
      basis.up.length = 1 → basis.forward.length = 1 → 0 < c.dist →
      (c.cameraPose basis).position =
        c.focus.add (Vec3.smul c.dist
          (((Quat.from_axis_angle basis.up c.yaw).mul
            (Quat.from_axis_angle
              ((basis.up.cross basis.forward).normalize)
              (-c.pitch))).rotate basis.forward)) ∧
      (c.cameraPose basis).target = c.focus ∧
      (c.cameraPose basis).up =
        ((Quat.from_axis_angle basis.up c.yaw).mul
          (Quat.from_axis_angle
            ((basis.up.cross basis.forward).normalize)
            (-c.pitch))).rotate basis.up) ∧
    (YawPitchControls.cameraPose
      ⟨⟨0, 0, 0⟩, toRadians 45, toRadians 45, 1⟩
      ⟨⟨0, 1, 0⟩, ⟨0, 0, 1⟩⟩).position =
      ⟨1 / 2, Real.sqrt 2 / 2, 1 / 2⟩ := by
  refine ⟨fun basis c _ _ _ => ⟨rfl, rfl, rfl⟩, ?_⟩
  have h1 : Real.cos (Real.pi / 8) ^ 2 + Real.sin (Real.pi / 8) ^ 2 = 1 :=
    Real.cos_sq_add_sin_sq _
  have h2 : 2 * Real.sin (Real.pi / 8) * Real.cos (Real.pi / 8) =
      Real.sqrt 2 / 2 := by
    have h := Real.sin_two_mul (Real.pi / 8)
    rw [show 2 * (Real.pi / 8) = Real.pi / 4 from by ring,
      Real.sin_pi_div_four] at h
    exact h.symm
  have h3 : 2 * Real.cos (Real.pi / 8) ^ 2 - 1 = Real.sqrt 2 / 2 := by
    have h := Real.cos_two_mul (Real.pi / 8)
    rw [show 2 * (Real.pi / 8) = Real.pi / 4 from by ring,
      Real.cos_pi_div_four] at h
    exact h.symm
  have hx : (2 * Real.sin (Real.pi / 8) * Real.cos (Real.pi / 8)) *
      (2 * Real.cos (Real.pi / 8) ^ 2 - 1) = 1 / 2 := by
    rw [h2, h3, div_mul_div_comm,
      Real.mul_self_sqrt (by norm_num : (0:ℝ) ≤ 2)]
    norm_num
  have hz : (2 * Real.cos (Real.pi / 8) ^ 2 - 1) ^ 2 = 1 / 2 := by
    rw [h3, div_pow, Real.sq_sqrt (by norm_num : (0:ℝ) ≤ 2)]
    norm_num
  have h8 : toRadians 45 / 2 = Real.pi / 8 := by unfold toRadians; ring
  have h8n : -toRadians 45 / 2 = -(Real.pi / 8) := by unfold toRadians; ring
  have haxis : (Vec3.cross ⟨0, 1, 0⟩ ⟨0, 0, 1⟩).normalize =
      (⟨1, 0, 0⟩ : Vec3) := by
    rw [show Vec3.cross ⟨0, 1, 0⟩ ⟨0, 0, 1⟩ = (⟨1, 0, 0⟩ : Vec3) from by
      simp [Vec3.cross]]
    simp [Vec3.normalize, Vec3.length, Vec3.smul, Real.sqrt_one]
  simp only [YawPitchControls.cameraPose, YawPitchControls.local_basis,
    YawPitchControls.rotator, YawPitchControls.yawRotation, haxis,
    Quat.from_axis_angle, h8, h8n, Real.cos_neg, Real.sin_neg,
    Quat.mul, Quat.rotate, Quat.conj, Vec3.add, Vec3.smul, Vec3.mk.injEq]
  refine ⟨?_, ?_, ?_⟩
  · linear_combination hx -
      2 * Real.cos (Real.pi / 8) * Real.sin (Real.pi / 8) * h1
  · linear_combination h2 +
      2 * Real.cos (Real.pi / 8) * Real.sin (Real.pi / 8) * h1
  · linear_combination hz +
      (Real.sin (Real.pi / 8) ^ 2 - 3 * Real.cos (Real.pi / 8) ^ 2 + 1) * h1

/-- Witness for C3: the pose formula applied to the concrete isometric
scenario (unit basis, dist = 1). -/
theorem claim3_orbit_camera_witness :
    (YawPitchControls.cameraPose
        ⟨⟨0, 0, 0⟩, toRadians 45, toRadians 45, 1⟩
        ⟨⟨0, 1, 0⟩, ⟨0, 0, 1⟩⟩).position =
      (Vec3.mk 0 0 0).add (Vec3.smul 1
        (((Quat.from_axis_angle ⟨0, 1, 0⟩ (toRadians 45)).mul
          (Quat.from_axis_angle
            ((Vec3.cross ⟨0, 1, 0⟩ ⟨0, 0, 1⟩).normalize)
            (-toRadians 45))).rotate ⟨0, 0, 1⟩)) ∧
    (YawPitchControls.cameraPose
        ⟨⟨0, 0, 0⟩, toRadians 45, toRadians 45, 1⟩
        ⟨⟨0, 1, 0⟩, ⟨0, 0, 1⟩⟩).target = ⟨0, 0, 0⟩ ∧
    (YawPitchControls.cameraPose
        ⟨⟨0, 0, 0⟩, toRadians 45, toRadians 45, 1⟩
        ⟨⟨0, 1, 0⟩, ⟨0, 0, 1⟩⟩).up =
      ((Quat.from_axis_angle ⟨0, 1, 0⟩ (toRadians 45)).mul
        (Quat.from_axis_angle
          ((Vec3.cross ⟨0, 1, 0⟩ ⟨0, 0, 1⟩).normalize)
          (-toRadians 45))).rotate ⟨0, 1, 0⟩ :=
  claim3_orbit_camera.1 ⟨⟨0, 1, 0⟩, ⟨0, 0, 1⟩⟩
    ⟨⟨0, 0, 0⟩, toRadians 45, toRadians 45, 1⟩
    (by simp [Vec3.length, Real.sqrt_one])
    (by simp [Vec3.length, Real.sqrt_one]) one_pos

end RustyJam
